import Mathlib

/-!
Shallow embedding of the `matrix-rust-sdk-crypto-web` bootstrap loader.

The repository has three loader variants (plus an ESM twin of the CJS
fetch variant):

* `src/index.js` — CommonJS, fetch-based: a guard `Proxy` throws on every
  property read until `initAsync` has run; `loadModule` memoizes the
  compiled module in the module-level `mod` variable, preferring
  `WebAssembly.compileStreaming(fetch(url))` and otherwise fetching,
  checking `response.ok`, buffering and calling `WebAssembly.compile`;
  `initAsync` then constructs a `WebAssembly.Instance`, rebinds the live
  exports slot via `__wbg_set_wasm(instance.exports)` and invokes
  `__wbindgen_start()`.
* `src/unnamed/part_000` — the ESM twin: identical guard proxy and
  loader, except `loadModule` returns the module value which `initAsync`
  binds locally.
* `src/node.js` — Node CommonJS: the guard proxy instead auto-loads, by
  calling `loadModuleSync()` (blocking `readFileSync` + `new
  WebAssembly.Module`) and then `initInstance()[prop]`; `initAsync` uses
  the async `loadModule` (`readFile` + `WebAssembly.compile`) followed by
  `initInstance()`.

The embedding models the process-wide mutable state (the `mod` cache,
the live exports slot, and a fresh-id supply used to distinguish
distinct compiled modules and instances), the host environment (which
host operations succeed), and an event trace recording each fetch,
read, compile, instantiation, slot rebinding and start-up invocation.
Host awaits (`fetch`, `WebAssembly.compile`, `compileStreaming`,
`fs.promises.readFile`) are the suspension points; `readFileSync`,
`new WebAssembly.Module`, `new WebAssembly.Instance`, the slot
rebinding, and `__wbindgen_start` are synchronous.
-/

/-- Events recorded while the loader runs. Ids on `rebind`/`start`
identify which instance's export table is involved. -/
inductive Ev where
  | fetch
  | compileStreaming
  | compileBuffer
  | compileSync
  | readSync
  | readAsync
  | instantiate
  | rebind (i : Nat)
  | start (i : Nat)
  deriving DecidableEq, Repr

/-- Which events are asynchronous suspension points (`await`ed host
calls) in the JavaScript source. -/
def suspends : Ev → Bool
  | Ev.fetch => true
  | Ev.compileStreaming => true
  | Ev.compileBuffer => true
  | Ev.readAsync => true
  | Ev.compileSync => false
  | Ev.readSync => false
  | Ev.instantiate => false
  | Ev.rebind _ => false
  | Ev.start _ => false

/-- The live exports slot: what `__wbg_set_wasm` last installed. It is
initially the guard `Proxy` and may later hold an instance's export
table (identified by the instance id). -/
inductive Slot where
  | guard
  | exports (i : Nat)
  deriving DecidableEq, Repr

/-- Process-wide loader state: the `mod` cache variable, the live
exports slot, and a supply of fresh ids for compiled modules and
instances. -/
structure St where
  mod : Option Nat
  slot : Slot
  nextId : Nat
  deriving DecidableEq, Repr

/-- State at module-load time: empty cache, guard proxy installed. -/
def st0 : St := ⟨none, Slot.guard, 0⟩

/-- Result of running a loader operation: the final state, the trace of
events it performed, and its returned value or thrown error message. -/
structure Res (α : Type) where
  st : St
  tr : List Ev
  val : Except String α
  deriving Repr

/-- Returns `true` when an `Except` result is a success. -/
def isOkE {α : Type} : Except String α → Bool
  | Except.ok _ => true
  | Except.error _ => false

/-- Decidable equality for `Except`, so concrete run outcomes can be
checked by `decide`. -/
instance {ε α : Type} [DecidableEq ε] [DecidableEq α] : DecidableEq (Except ε α)
  | Except.ok a, Except.ok b =>
    if h : a = b then isTrue (h ▸ rfl) else isFalse (fun hh => h (Except.ok.inj hh))
  | Except.error a, Except.error b =>
    if h : a = b then isTrue (h ▸ rfl) else isFalse (fun hh => h (Except.error.inj hh))
  | Except.ok _, Except.error _ => isFalse (fun hh => Except.noConfusion hh)
  | Except.error _, Except.ok _ => isFalse (fun hh => Except.noConfusion hh)

/-- The value a domain call ultimately reads off an instance's export
table: which instance served it, and which property was read. -/
structure ExportVal where
  inst : Nat
  prop : String
  deriving DecidableEq, Repr

/-- Host environment for the fetch-based variants (`src/index.js` and
the ESM twin): whether `WebAssembly.compileStreaming` exists, whether
the `fetch` promise resolves, whether `response.ok` holds, whether the
streaming and buffered compiles succeed, whether `new
WebAssembly.Instance` links, and the host-produced error messages. -/
structure FetchEnv where
  hasStreaming : Bool
  fetchResolves : Bool
  respOk : Bool
  streamingCompileOk : Bool
  bufferedCompileOk : Bool
  instOk : Bool
  streamingErrMsg : String
  bufferedErrMsg : String
  fetchErrMsg : String
  linkErrMsg : String
  deriving Repr

/-- Host environment for the Node variant (`src/node.js`). -/
structure NodeEnv where
  readSyncOk : Bool
  readAsyncOk : Bool
  compileOk : Bool
  instOk : Bool
  readErrMsg : String
  compileErrMsg : String
  linkErrMsg : String
  deriving Repr

/-- The resolved location of the wasm asset
(`require.resolve("./pkg/matrix_sdk_crypto_wasm_bg.wasm")` in
`src/index.js`, `new URL(..., import.meta.url)` in the ESM twin). -/
def moduleUrl : String := "./pkg/matrix_sdk_crypto_wasm_bg.wasm"

/-- The message of the error thrown by the guard proxy installed by
`__wbg_set_wasm` in `src/index.js` (lines 24-35) and identically in the
ESM twin (`src/unnamed/part_000`, lines 21-32). -/
def guardMessage : String :=
  "@matrix-org/matrix-sdk-crypto-wasm was used before it was initialized. Call `initAsync` first."

/-- Lists (and therefore detects) whether `needle` occurs as a
contiguous prefix of `l`. -/
def listPrefixOf : List Char → List Char → Bool
  | [], _ => true
  | _ :: _, [] => false
  | a :: as, b :: bs => a == b && listPrefixOf as bs

/-- Whether `needle` occurs contiguously anywhere in `l`. -/
def listSub (needle : List Char) : List Char → Bool
  | [] => listPrefixOf needle []
  | c :: rest => listPrefixOf needle (c :: rest) || listSub needle rest

/-- Whether string `needle` occurs as a substring of `hay` (models
JavaScript `String.prototype.includes`). -/
def strIncludes (hay needle : String) : Bool := listSub needle.data hay.data

/-- The error message thrown by the buffered fetch path of `loadModule`
in `src/index.js` (line 50) and the ESM twin (line 48). -/
def fetchStatusErrMsg : String := "Failed to fetch wasm module: " ++ moduleUrl

/-- `loadModule` of `src/index.js` (lines 39-54): early-return when the
`mod` cache is set; otherwise prefer
`WebAssembly.compileStreaming(fetch(moduleUrl))` when the host provides
it (`compileStreaming` rejects if the fetch rejects, if the response is
not ok, or if the payload does not compile); otherwise fetch, throw the
url-citing error unless `response.ok`, buffer the bytes and
`WebAssembly.compile` them. The cache is written only on compile
success. -/
def IndexJs.loadModule (env : FetchEnv) (s : St) : Res Unit :=
  match s.mod with
  | some _ => ⟨s, [], Except.ok ()⟩
  | none =>
    if env.hasStreaming then
      if env.fetchResolves then
        if env.respOk then
          if env.streamingCompileOk then
            ⟨⟨some s.nextId, s.slot, s.nextId + 1⟩, [Ev.fetch, Ev.compileStreaming], Except.ok ()⟩
          else ⟨s, [Ev.fetch, Ev.compileStreaming], Except.error env.streamingErrMsg⟩
        else ⟨s, [Ev.fetch], Except.error env.streamingErrMsg⟩
      else ⟨s, [Ev.fetch], Except.error env.fetchErrMsg⟩
    else
      if env.fetchResolves then
        if env.respOk then
          if env.bufferedCompileOk then
            ⟨⟨some s.nextId, s.slot, s.nextId + 1⟩, [Ev.fetch, Ev.compileBuffer], Except.ok ()⟩
          else ⟨s, [Ev.fetch, Ev.compileBuffer], Except.error env.bufferedErrMsg⟩
        else ⟨s, [Ev.fetch], Except.error fetchStatusErrMsg⟩
      else ⟨s, [Ev.fetch], Except.error env.fetchErrMsg⟩

/-- `initAsync` of `src/index.js` (lines 56-68): `await loadModule()`,
then construct `new WebAssembly.Instance(mod, ...)` (a fresh instance
on every call — there is no instance cache), then
`bindings.__wbg_set_wasm(instance.exports)`, then
`instance.exports.__wbindgen_start()`. A link failure propagates and
skips the rebind and the start call. -/
def IndexJs.initAsync (env : FetchEnv) (s : St) : Res Unit :=
  let l := IndexJs.loadModule env s
  match l.val with
  | Except.error e => ⟨l.st, l.tr, Except.error e⟩
  | Except.ok _ =>
    if env.instOk then
      ⟨⟨l.st.mod, Slot.exports l.st.nextId, l.st.nextId + 1⟩,
        l.tr ++ [Ev.instantiate, Ev.rebind l.st.nextId, Ev.start l.st.nextId],
        Except.ok ()⟩
    else ⟨l.st, l.tr ++ [Ev.instantiate], Except.error env.linkErrMsg⟩

/-- A domain call made through the generated bindings of the fetch
variants: `wasm.prop` where `wasm` is whatever `__wbg_set_wasm` last
installed. Before initialization, the slot holds the guard proxy of
`src/index.js` lines 24-35 (identical in `src/unnamed/part_000` lines
21-32), whose `get` trap throws `guardMessage`; afterwards, it reads
the property off the installed instance's export table. -/
def IndexJs.domainCall (s : St) (p : String) : Res ExportVal :=
  match s.slot with
  | Slot.guard => ⟨s, [], Except.error guardMessage⟩
  | Slot.exports i => ⟨s, [], Except.ok ⟨i, p⟩⟩

/-- A top-level operation an embedding application can perform against
a loader variant: call `initAsync`, or make a domain call. -/
inductive Op where
  | init
  | domain (prop : String)
  deriving DecidableEq, Repr

/-- Result of a sequence of operations: final state, concatenated
trace, and per-operation outcomes (`none` marks an `initAsync`
completion, `some v` a domain call's value). -/
structure RunOut where
  st : St
  tr : List Ev
  outs : List (Except String (Option ExportVal))
  deriving Repr

/-- One operation against the `src/index.js` variant. -/
def IndexJs.runOp (env : FetchEnv) (s : St) : Op → Res (Option ExportVal)
  | Op.init =>
    let r := IndexJs.initAsync env s
    ⟨r.st, r.tr, match r.val with
      | Except.ok _ => Except.ok none
      | Except.error e => Except.error e⟩
  | Op.domain p =>
    let r := IndexJs.domainCall s p
    ⟨r.st, r.tr, match r.val with
      | Except.ok v => Except.ok (some v)
      | Except.error e => Except.error e⟩

/-- A sequential run of operations against the `src/index.js` variant.
An operation that throws does not stop later operations (each is a
separate top-level call). -/
def IndexJs.runOps (env : FetchEnv) : St → List Op → RunOut
  | s, [] => ⟨s, [], []⟩
  | s, op :: ops =>
    let r := IndexJs.runOp env s op
    let rest := IndexJs.runOps env r.st ops
    ⟨rest.st, r.tr ++ rest.tr, r.val :: rest.outs⟩

/-- Event-class predicate used by the counting helpers below. -/
def isFetchEv : Ev → Bool
  | Ev.fetch => true
  | _ => false

/-- Whether an event is a compile of any kind (streaming, buffered, or
the synchronous `new WebAssembly.Module`). -/
def isCompileEv : Ev → Bool
  | Ev.compileStreaming => true
  | Ev.compileBuffer => true
  | Ev.compileSync => true
  | _ => false

/-- Whether an event is a buffered (`WebAssembly.compile`) compile. -/
def isCompileBufferEv : Ev → Bool
  | Ev.compileBuffer => true
  | _ => false

/-- Whether an event is an instantiation attempt. -/
def isInstEv : Ev → Bool
  | Ev.instantiate => true
  | _ => false

/-- Whether an event rebinds the live exports slot. -/
def isRebindEv : Ev → Bool
  | Ev.rebind _ => true
  | _ => false

/-- Whether an event invokes the start-up export. -/
def isStartEv : Ev → Bool
  | Ev.start _ => true
  | _ => false

/-- Whether an event is a synchronous file read. -/
def isReadSyncEv : Ev → Bool
  | Ev.readSync => true
  | _ => false

/-- Number of fetches in a trace. -/
def countFetches (tr : List Ev) : Nat := tr.countP isFetchEv

/-- Number of compiles (of any kind) in a trace. -/
def countCompiles (tr : List Ev) : Nat := tr.countP isCompileEv

/-- Number of buffered compiles in a trace. -/
def countBufferCompiles (tr : List Ev) : Nat := tr.countP isCompileBufferEv

/-- Number of instantiation attempts in a trace. -/
def countInsts (tr : List Ev) : Nat := tr.countP isInstEv

/-- Number of slot rebindings in a trace. -/
def countRebinds (tr : List Ev) : Nat := tr.countP isRebindEv

/-- Number of start-up invocations in a trace. -/
def countStarts (tr : List Ev) : Nat := tr.countP isStartEv

/-- Number of synchronous file reads in a trace. -/
def countReadSyncs (tr : List Ev) : Nat := tr.countP isReadSyncEv

/-- An environment in which every host operation the fetch variants
perform succeeds. -/
def goodFetchEnv (env : FetchEnv) : Prop :=
  env.fetchResolves = true ∧ env.respOk = true ∧ env.streamingCompileOk = true
    ∧ env.bufferedCompileOk = true ∧ env.instOk = true

/-- An environment in which every host operation the Node variant
performs succeeds. -/
def goodNodeEnv (env : NodeEnv) : Prop :=
  env.readSyncOk = true ∧ env.readAsyncOk = true ∧ env.compileOk = true ∧ env.instOk = true

/-- A concrete all-success fetch environment with streaming support. -/
def fenvAll : FetchEnv :=
  ⟨true, true, true, true, true, true,
    "compileStreaming rejected", "invalid wasm payload", "fetch failed: network unreachable",
    "LinkError: import object field is not a Function"⟩

/-- `fenvAll` without streaming-compilation support. -/
def fenvNoStream : FetchEnv := { fenvAll with hasStreaming := false }

/-- A streaming-capable environment in which the response has a
non-success status, so `compileStreaming` rejects with the host's own
message (which does not mention the module url). -/
def fenvStreamBadStatus : FetchEnv :=
  { fenvAll with
    respOk := false
    streamingErrMsg := "TypeError: Incorrect response MIME type. Expected application/wasm." }

/-- A streaming-capable environment in which the streaming compile path
fails but a buffered compile would succeed. -/
def fenvStreamCompileFail : FetchEnv := { fenvAll with streamingCompileOk := false }

/-- An environment without streaming compilation in which the response
has a non-success status. -/
def fenvNoStreamBadStatus : FetchEnv := { fenvNoStream with respOk := false }

/-- An environment in which the fetch itself rejects (resource
unreachable). -/
def fenvUnreachable : FetchEnv := { fenvAll with fetchResolves := false }

/-- `fenvAll` with a failing instantiation (unsatisfied import). -/
def fenvLinkFail : FetchEnv := { fenvAll with instOk := false }

/-- `loadModule` of the ESM twin (`src/unnamed/part_000`, lines 37-53):
identical to the `src/index.js` loader except that the compiled module
is also returned (`return mod`). -/
def EsmJs.loadModule (env : FetchEnv) (s : St) : Res Nat :=
  match s.mod with
  | some m => ⟨s, [], Except.ok m⟩
  | none =>
    if env.hasStreaming then
      if env.fetchResolves then
        if env.respOk then
          if env.streamingCompileOk then
            ⟨⟨some s.nextId, s.slot, s.nextId + 1⟩, [Ev.fetch, Ev.compileStreaming], Except.ok s.nextId⟩
          else ⟨s, [Ev.fetch, Ev.compileStreaming], Except.error env.streamingErrMsg⟩
        else ⟨s, [Ev.fetch], Except.error env.streamingErrMsg⟩
      else ⟨s, [Ev.fetch], Except.error env.fetchErrMsg⟩
    else
      if env.fetchResolves then
        if env.respOk then
          if env.bufferedCompileOk then
            ⟨⟨some s.nextId, s.slot, s.nextId + 1⟩, [Ev.fetch, Ev.compileBuffer], Except.ok s.nextId⟩
          else ⟨s, [Ev.fetch, Ev.compileBuffer], Except.error env.bufferedErrMsg⟩
        else ⟨s, [Ev.fetch], Except.error fetchStatusErrMsg⟩
      else ⟨s, [Ev.fetch], Except.error env.fetchErrMsg⟩

/-- `initAsync` of the ESM twin (`src/unnamed/part_000`, lines 55-62):
`const mod = await loadModule()`, then a fresh `new
WebAssembly.Instance(mod, ...)`, then the slot rebind, then
`__wbindgen_start()`. -/
def EsmJs.initAsync (env : FetchEnv) (s : St) : Res Unit :=
  let l := EsmJs.loadModule env s
  match l.val with
  | Except.error e => ⟨l.st, l.tr, Except.error e⟩
  | Except.ok _ =>
    if env.instOk then
      ⟨⟨l.st.mod, Slot.exports l.st.nextId, l.st.nextId + 1⟩,
        l.tr ++ [Ev.instantiate, Ev.rebind l.st.nextId, Ev.start l.st.nextId],
        Except.ok ()⟩
    else ⟨l.st, l.tr ++ [Ev.instantiate], Except.error env.linkErrMsg⟩

/-- `loadModuleSync` of `src/node.js` (lines 43-47): early-return when
the `mod` cache is set; otherwise `readFileSync(filename)` (blocking)
and `new WebAssembly.Module(bytes)` (synchronous compile). The cache is
written only on compile success. -/
def NodeJs.loadModuleSync (env : NodeEnv) (s : St) : Res Unit :=
  match s.mod with
  | some _ => ⟨s, [], Except.ok ()⟩
  | none =>
    if env.readSyncOk then
      if env.compileOk then
        ⟨⟨some s.nextId, s.slot, s.nextId + 1⟩, [Ev.readSync, Ev.compileSync], Except.ok ()⟩
      else ⟨s, [Ev.readSync, Ev.compileSync], Except.error env.compileErrMsg⟩
    else ⟨s, [Ev.readSync], Except.error env.readErrMsg⟩

/-- `loadModule` of `src/node.js` (lines 49-53): the asynchronous twin,
using `await readFile(filename)` and `await WebAssembly.compile(bytes)`.
It shares the same `mod` cache slot as `loadModuleSync`. -/
def NodeJs.loadModule (env : NodeEnv) (s : St) : Res Unit :=
  match s.mod with
  | some _ => ⟨s, [], Except.ok ()⟩
  | none =>
    if env.readAsyncOk then
      if env.compileOk then
        ⟨⟨some s.nextId, s.slot, s.nextId + 1⟩, [Ev.readAsync, Ev.compileBuffer], Except.ok ()⟩
      else ⟨s, [Ev.readAsync, Ev.compileBuffer], Except.error env.compileErrMsg⟩
    else ⟨s, [Ev.readAsync], Except.error env.readErrMsg⟩

/-- `initInstance` of `src/node.js` (lines 55-66): constructs a fresh
`new WebAssembly.Instance(mod, ...)` (throwing the host `TypeError` if
`mod` is still undefined, or the link error if the import is not
satisfied), rebinds the slot via `__wbg_set_wasm(instance.exports)`,
invokes `__wbindgen_start()`, and returns the export table. -/
def NodeJs.initInstance (env : NodeEnv) (s : St) : Res Nat :=
  match s.mod with
  | none => ⟨s, [Ev.instantiate], Except.error "TypeError: first argument must be a WebAssembly.Module"⟩
  | some _ =>
    if env.instOk then
      ⟨⟨s.mod, Slot.exports s.nextId, s.nextId + 1⟩,
        [Ev.instantiate, Ev.rebind s.nextId, Ev.start s.nextId],
        Except.ok s.nextId⟩
    else ⟨s, [Ev.instantiate], Except.error env.linkErrMsg⟩

/-- A domain call made through the generated bindings of the Node
variant. Before initialization the slot holds the auto-loading proxy of
`src/node.js` lines 29-39, whose `get` trap runs `loadModuleSync()` and
then `initInstance()[prop]`; afterwards the property is read directly
off the installed export table. -/
def NodeJs.domainCall (env : NodeEnv) (s : St) (p : String) : Res ExportVal :=
  match s.slot with
  | Slot.exports i => ⟨s, [], Except.ok ⟨i, p⟩⟩
  | Slot.guard =>
    let l := NodeJs.loadModuleSync env s
    match l.val with
    | Except.error e => ⟨l.st, l.tr, Except.error e⟩
    | Except.ok _ =>
      let r := NodeJs.initInstance env l.st
      match r.val with
      | Except.error e => ⟨r.st, l.tr ++ r.tr, Except.error e⟩
      | Except.ok i => ⟨r.st, l.tr ++ r.tr, Except.ok ⟨i, p⟩⟩

/-- `initAsync` of `src/node.js` (lines 68-71): `await loadModule()`
then `initInstance()`. -/
def NodeJs.initAsync (env : NodeEnv) (s : St) : Res Unit :=
  let l := NodeJs.loadModule env s
  match l.val with
  | Except.error e => ⟨l.st, l.tr, Except.error e⟩
  | Except.ok _ =>
    let r := NodeJs.initInstance env l.st
    ⟨r.st, l.tr ++ r.tr, match r.val with
      | Except.ok _ => Except.ok ()
      | Except.error e => Except.error e⟩

/-- One operation against the `src/node.js` variant. -/
def NodeJs.runOp (env : NodeEnv) (s : St) : Op → Res (Option ExportVal)
  | Op.init =>
    let r := NodeJs.initAsync env s
    ⟨r.st, r.tr, match r.val with
      | Except.ok _ => Except.ok none
      | Except.error e => Except.error e⟩
  | Op.domain p =>
    let r := NodeJs.domainCall env s p
    ⟨r.st, r.tr, match r.val with
      | Except.ok v => Except.ok (some v)
      | Except.error e => Except.error e⟩

/-- A sequential run of operations against the `src/node.js` variant. -/
def NodeJs.runOps (env : NodeEnv) : St → List Op → RunOut
  | s, [] => ⟨s, [], []⟩
  | s, op :: ops =>
    let r := NodeJs.runOp env s op
    let rest := NodeJs.runOps env r.st ops
    ⟨rest.st, r.tr ++ rest.tr, r.val :: rest.outs⟩

/-- A concrete all-success Node environment. -/
def nenvAll : NodeEnv :=
  ⟨true, true, true, true, "ENOENT: no such file or directory",
    "CompileError: invalid wasm payload", "LinkError: import object field is not a Function"⟩

/-- A Node environment in which the wasm file cannot be read. -/
def nenvNoFile : NodeEnv := { nenvAll with readSyncOk := false, readAsyncOk := false }

/-- `nenvAll` with a failing instantiation (unsatisfied import). -/
def nenvLinkFail : NodeEnv := { nenvAll with instOk := false }

/-- The three consecutive synchronous steps performed by every
successful instantiation: instance construction, slot rebind, start-up
invocation for the same instance `i`. -/
def initTriple (i : Nat) : List Ev := [Ev.instantiate, Ev.rebind i, Ev.start i]

/-- A trace that ends with the construct/rebind/start triple for one
instance, performs no other rebind, and whose triple contains no
suspension point. -/
def endsWithAtomicInitTriple (tr : List Ev) : Prop :=
  ∃ pre i, tr = pre ++ initTriple i ∧ countRebinds pre = 0
    ∧ ∀ e ∈ initTriple i, suspends e = false

theorem IndexJs.loadModule_slot_cjs (env : FetchEnv) (s : St) :
    (IndexJs.loadModule env s).st.slot = s.slot := by
  rcases s with ⟨smod, sslot, snext⟩
  rcases env with ⟨hs, fr, ro, so, bo, io, m1, m2, m3, m4⟩
  cases smod <;> cases hs <;> cases fr <;> cases ro <;> cases so <;> cases bo <;>
    simp [IndexJs.loadModule]

theorem IndexJs.loadModule_counts_cjs (env : FetchEnv) (s : St) :
    countRebinds (IndexJs.loadModule env s).tr = 0
      ∧ countInsts (IndexJs.loadModule env s).tr = 0
      ∧ countStarts (IndexJs.loadModule env s).tr = 0 := by
  rcases s with ⟨smod, sslot, snext⟩
  rcases env with ⟨hs, fr, ro, so, bo, io, m1, m2, m3, m4⟩
  cases smod <;> cases hs <;> cases fr <;> cases ro <;> cases so <;> cases bo <;>
    simp [IndexJs.loadModule, countRebinds, countInsts, countStarts, List.countP, List.countP.go,
      isRebindEv, isInstEv, isStartEv]

theorem IndexJs.loadModule_err_mod_cjs (env : FetchEnv) (s : St) (hm : s.mod = none)
    (he : isOkE (IndexJs.loadModule env s).val = false) :
    (IndexJs.loadModule env s).st.mod = none := by
  rcases s with ⟨smod, sslot, snext⟩
  cases hm
  rcases env with ⟨hs, fr, ro, so, bo, io, m1, m2, m3, m4⟩
  cases hs <;> cases fr <;> cases ro <;> cases so <;> cases bo <;>
    simp_all [IndexJs.loadModule, isOkE]

theorem IndexJs.loadModule_cached_cjs (env : FetchEnv) (s : St) (m : Nat) (hm : s.mod = some m) :
    IndexJs.loadModule env s = ⟨s, [], Except.ok ()⟩ := by
  unfold IndexJs.loadModule
  rw [hm]

theorem IndexJs.initAsync_cached (env : FetchEnv) (s : St) (m : Nat)
    (hm : s.mod = some m) (hio : env.instOk = true) :
    IndexJs.initAsync env s
      = ⟨⟨some m, Slot.exports s.nextId, s.nextId + 1⟩,
          [Ev.instantiate, Ev.rebind s.nextId, Ev.start s.nextId], Except.ok ()⟩ := by
  unfold IndexJs.initAsync
  rw [IndexJs.loadModule_cached_cjs env s m hm]
  simp [hio, hm]

theorem IndexJs.initAsync_fresh_good_cjs (env : FetchEnv) (s : St)
    (hm : s.mod = none) (h : goodFetchEnv env) :
    IndexJs.initAsync env s
      = ⟨⟨some s.nextId, Slot.exports (s.nextId + 1), s.nextId + 2⟩,
          (if env.hasStreaming then [Ev.fetch, Ev.compileStreaming] else [Ev.fetch, Ev.compileBuffer])
            ++ [Ev.instantiate, Ev.rebind (s.nextId + 1), Ev.start (s.nextId + 1)],
          Except.ok ()⟩ := by
  obtain ⟨h1, h2, h3, h4, h5⟩ := h
  rcases s with ⟨smod, sslot, snext⟩
  cases hm
  cases hhs : env.hasStreaming <;>
    simp [IndexJs.initAsync, IndexJs.loadModule, hhs, h1, h2, h3, h4, h5]

theorem IndexJs.initAsync_ok_tr_cjs (env : FetchEnv) (s : St)
    (h : isOkE (IndexJs.initAsync env s).val = true) :
    (IndexJs.initAsync env s).tr
      = (IndexJs.loadModule env s).tr ++ initTriple (IndexJs.loadModule env s).st.nextId := by
  unfold IndexJs.initAsync at h ⊢
  cases hval : (IndexJs.loadModule env s).val with
  | error e => simp only [hval, isOkE] at h; exact Bool.noConfusion h
  | ok u =>
    simp only [hval] at h ⊢
    cases hio : env.instOk <;> simp [hio, isOkE, initTriple] at h ⊢

theorem IndexJs.initAsync_err_slot_cjs (env : FetchEnv) (s : St)
    (h : isOkE (IndexJs.initAsync env s).val = false) :
    (IndexJs.initAsync env s).st.slot = s.slot := by
  unfold IndexJs.initAsync at h ⊢
  cases hval : (IndexJs.loadModule env s).val with
  | error e => simp only [hval] at h ⊢; simpa using IndexJs.loadModule_slot_cjs env s
  | ok u =>
    simp only [hval] at h ⊢
    cases hio : env.instOk <;> simp [hio, isOkE] at h ⊢
    simpa using IndexJs.loadModule_slot_cjs env s

theorem EsmJs.loadModule_slot_esm (env : FetchEnv) (s : St) :
    (EsmJs.loadModule env s).st.slot = s.slot := by
  rcases s with ⟨smod, sslot, snext⟩
  rcases env with ⟨hs, fr, ro, so, bo, io, m1, m2, m3, m4⟩
  cases smod <;> cases hs <;> cases fr <;> cases ro <;> cases so <;> cases bo <;>
    simp [EsmJs.loadModule]

theorem EsmJs.loadModule_counts_esm (env : FetchEnv) (s : St) :
    countRebinds (EsmJs.loadModule env s).tr = 0
      ∧ countInsts (EsmJs.loadModule env s).tr = 0
      ∧ countStarts (EsmJs.loadModule env s).tr = 0 := by
  rcases s with ⟨smod, sslot, snext⟩
  rcases env with ⟨hs, fr, ro, so, bo, io, m1, m2, m3, m4⟩
  cases smod <;> cases hs <;> cases fr <;> cases ro <;> cases so <;> cases bo <;>
    simp [EsmJs.loadModule, countRebinds, countInsts, countStarts, List.countP, List.countP.go,
      isRebindEv, isInstEv, isStartEv]

theorem EsmJs.loadModule_cached_esm (env : FetchEnv) (s : St) (m : Nat) (hm : s.mod = some m) :
    EsmJs.loadModule env s = ⟨s, [], Except.ok m⟩ := by
  unfold EsmJs.loadModule
  rw [hm]

theorem EsmJs.initAsync_ok_tr_esm (env : FetchEnv) (s : St)
    (h : isOkE (EsmJs.initAsync env s).val = true) :
    (EsmJs.initAsync env s).tr
      = (EsmJs.loadModule env s).tr ++ initTriple (EsmJs.loadModule env s).st.nextId := by
  unfold EsmJs.initAsync at h ⊢
  cases hval : (EsmJs.loadModule env s).val with
  | error e => simp only [hval, isOkE] at h; exact Bool.noConfusion h
  | ok m =>
    simp only [hval] at h ⊢
    cases hio : env.instOk <;> simp [hio, isOkE, initTriple] at h ⊢

theorem NodeJs.loadModuleSync_cached (env : NodeEnv) (s : St) (m : Nat) (hm : s.mod = some m) :
    NodeJs.loadModuleSync env s = ⟨s, [], Except.ok ()⟩ := by
  unfold NodeJs.loadModuleSync
  rw [hm]

theorem NodeJs.loadModule_cached_node (env : NodeEnv) (s : St) (m : Nat) (hm : s.mod = some m) :
    NodeJs.loadModule env s = ⟨s, [], Except.ok ()⟩ := by
  unfold NodeJs.loadModule
  rw [hm]

theorem NodeJs.loadModule_slot_node (env : NodeEnv) (s : St) :
    (NodeJs.loadModule env s).st.slot = s.slot := by
  rcases s with ⟨smod, sslot, snext⟩
  rcases env with ⟨rs, ra, co, io, m1, m2, m3⟩
  cases smod <;> cases ra <;> cases co <;> simp [NodeJs.loadModule]

theorem NodeJs.loadModuleSync_slot (env : NodeEnv) (s : St) :
    (NodeJs.loadModuleSync env s).st.slot = s.slot := by
  rcases s with ⟨smod, sslot, snext⟩
  rcases env with ⟨rs, ra, co, io, m1, m2, m3⟩
  cases smod <;> cases rs <;> cases co <;> simp [NodeJs.loadModuleSync]

theorem NodeJs.loadModule_counts_node (env : NodeEnv) (s : St) :
    countRebinds (NodeJs.loadModule env s).tr = 0
      ∧ countInsts (NodeJs.loadModule env s).tr = 0
      ∧ countStarts (NodeJs.loadModule env s).tr = 0 := by
  rcases s with ⟨smod, sslot, snext⟩
  rcases env with ⟨rs, ra, co, io, m1, m2, m3⟩
  cases smod <;> cases ra <;> cases co <;>
    simp [NodeJs.loadModule, countRebinds, countInsts, countStarts, List.countP, List.countP.go,
      isRebindEv, isInstEv, isStartEv]

theorem NodeJs.loadModuleSync_counts (env : NodeEnv) (s : St) :
    countRebinds (NodeJs.loadModuleSync env s).tr = 0
      ∧ countInsts (NodeJs.loadModuleSync env s).tr = 0
      ∧ countStarts (NodeJs.loadModuleSync env s).tr = 0 := by
  rcases s with ⟨smod, sslot, snext⟩
  rcases env with ⟨rs, ra, co, io, m1, m2, m3⟩
  cases smod <;> cases rs <;> cases co <;>
    simp [NodeJs.loadModuleSync, countRebinds, countInsts, countStarts, List.countP, List.countP.go,
      isRebindEv, isInstEv, isStartEv]

theorem NodeJs.loadModuleSync_err_mod (env : NodeEnv) (s : St) (hm : s.mod = none)
    (he : isOkE (NodeJs.loadModuleSync env s).val = false) :
    (NodeJs.loadModuleSync env s).st.mod = none := by
  rcases s with ⟨smod, sslot, snext⟩
  cases hm
  rcases env with ⟨rs, ra, co, io, m1, m2, m3⟩
  cases rs <;> cases co <;> simp_all [NodeJs.loadModuleSync, isOkE]

theorem NodeJs.loadModule_err_mod_node (env : NodeEnv) (s : St) (hm : s.mod = none)
    (he : isOkE (NodeJs.loadModule env s).val = false) :
    (NodeJs.loadModule env s).st.mod = none := by
  rcases s with ⟨smod, sslot, snext⟩
  cases hm
  rcases env with ⟨rs, ra, co, io, m1, m2, m3⟩
  cases ra <;> cases co <;> simp_all [NodeJs.loadModule, isOkE]

theorem NodeJs.initAsync_ok_tr_node (env : NodeEnv) (s : St)
    (h : isOkE (NodeJs.initAsync env s).val = true) :
    (NodeJs.initAsync env s).tr
      = (NodeJs.loadModule env s).tr ++ initTriple (NodeJs.loadModule env s).st.nextId := by
  unfold NodeJs.initAsync at h ⊢
  cases hval : (NodeJs.loadModule env s).val with
  | error e => simp only [hval, isOkE] at h; exact Bool.noConfusion h
  | ok u =>
    simp only [hval] at h ⊢
    unfold NodeJs.initInstance at h ⊢
    cases hm : (NodeJs.loadModule env s).st.mod with
    | none => simp only [hm, isOkE] at h; exact Bool.noConfusion h
    | some m =>
      simp only [hm] at h ⊢
      cases hio : env.instOk <;> simp [hio, isOkE, initTriple] at h ⊢

theorem NodeJs.domainCall_ready (env : NodeEnv) (s : St) (i : Nat) (p : String)
    (h : s.slot = Slot.exports i) :
    NodeJs.domainCall env s p = ⟨s, [], Except.ok ⟨i, p⟩⟩ := by
  unfold NodeJs.domainCall
  rw [h]

theorem NodeJs.domainCall_guard_ok_tr (env : NodeEnv) (s : St) (p : String)
    (hg : s.slot = Slot.guard)
    (h : isOkE (NodeJs.domainCall env s p).val = true) :
    (NodeJs.domainCall env s p).tr
      = (NodeJs.loadModuleSync env s).tr ++ initTriple (NodeJs.loadModuleSync env s).st.nextId := by
  unfold NodeJs.domainCall at h ⊢
  simp only [hg] at h ⊢
  cases hval : (NodeJs.loadModuleSync env s).val with
  | error e => simp only [hval, isOkE] at h; exact Bool.noConfusion h
  | ok u =>
    simp only [hval] at h ⊢
    unfold NodeJs.initInstance at h ⊢
    cases hm : (NodeJs.loadModuleSync env s).st.mod with
    | none => simp only [hm, isOkE] at h; exact Bool.noConfusion h
    | some m =>
      simp only [hm] at h ⊢
      cases hio : env.instOk <;> simp [hio, isOkE, initTriple] at h ⊢

theorem NodeJs.runOps_ready (env : NodeEnv) (ps : List String) (s : St) (i : Nat)
    (h : s.slot = Slot.exports i) :
    NodeJs.runOps env s (ps.map Op.domain) = ⟨s, [], ps.map (fun p => Except.ok (some ⟨i, p⟩))⟩ := by
  induction ps with
  | nil => simp [NodeJs.runOps]
  | cons p ps ih =>
    simp only [List.map_cons]
    unfold NodeJs.runOps NodeJs.runOp
    simp only [NodeJs.domainCall_ready env s i p h]
    simp [ih]

theorem NodeJs.runOp_preserves_mod (env : NodeEnv) (s : St) (m : Nat) (op : Op)
    (hm : s.mod = some m) : (NodeJs.runOp env s op).st.mod = some m := by
  cases op with
  | domain p =>
    unfold NodeJs.runOp NodeJs.domainCall
    cases hsl : s.slot with
    | exports i => simpa using hm
    | guard =>
      simp only [hsl, NodeJs.loadModuleSync_cached env s m hm]
      unfold NodeJs.initInstance
      simp only [hm]
      cases hio : env.instOk <;> simp [hio, hm]
  | init =>
    unfold NodeJs.runOp NodeJs.initAsync
    simp only [NodeJs.loadModule_cached_node env s m hm]
    unfold NodeJs.initInstance
    simp only [hm]
    cases hio : env.instOk <;> simp [hio, hm]

theorem NodeJs.runOps_preserves_mod (env : NodeEnv) (ops : List Op) (s : St) (m : Nat)
    (hm : s.mod = some m) : (NodeJs.runOps env s ops).st.mod = some m := by
  induction ops generalizing s with
  | nil => simpa [NodeJs.runOps] using hm
  | cons op ops ih =>
    unfold NodeJs.runOps
    exact ih _ (NodeJs.runOp_preserves_mod env s m op hm)

theorem countFetches_append (a b : List Ev) :
    countFetches (a ++ b) = countFetches a + countFetches b := by
  simp [countFetches, List.countP_append]

theorem countCompiles_append (a b : List Ev) :
    countCompiles (a ++ b) = countCompiles a + countCompiles b := by
  simp [countCompiles, List.countP_append]

theorem countBufferCompiles_append (a b : List Ev) :
    countBufferCompiles (a ++ b) = countBufferCompiles a + countBufferCompiles b := by
  simp [countBufferCompiles, List.countP_append]

theorem countInsts_append (a b : List Ev) :
    countInsts (a ++ b) = countInsts a + countInsts b := by
  simp [countInsts, List.countP_append]

theorem countRebinds_append (a b : List Ev) :
    countRebinds (a ++ b) = countRebinds a + countRebinds b := by
  simp [countRebinds, List.countP_append]

theorem countStarts_append (a b : List Ev) :
    countStarts (a ++ b) = countStarts a + countStarts b := by
  simp [countStarts, List.countP_append]

theorem countReadSyncs_append (a b : List Ev) :
    countReadSyncs (a ++ b) = countReadSyncs a + countReadSyncs b := by
  simp [countReadSyncs, List.countP_append]

theorem initTriple_no_suspension (i : Nat) : ∀ e ∈ initTriple i, suspends e = false := by
  intro e he
  simp [initTriple] at he
  rcases he with h | h | h <;> subst h <;> rfl

theorem EsmJs.initAsync_err_slot_esm (env : FetchEnv) (s : St)
    (h : isOkE (EsmJs.initAsync env s).val = false) :
    (EsmJs.initAsync env s).st.slot = s.slot := by
  unfold EsmJs.initAsync at h ⊢
  cases hval : (EsmJs.loadModule env s).val with
  | error e => simp only [hval] at h ⊢; simpa using EsmJs.loadModule_slot_esm env s
  | ok m =>
    simp only [hval] at h ⊢
    cases hio : env.instOk <;> simp [hio, isOkE] at h ⊢
    simpa using EsmJs.loadModule_slot_esm env s

theorem NodeJs.initAsync_fresh_good_node (env : NodeEnv) (s : St) (hm : s.mod = none)
    (h : goodNodeEnv env) :
    NodeJs.initAsync env s
      = ⟨⟨some s.nextId, Slot.exports (s.nextId + 1), s.nextId + 2⟩,
          [Ev.readAsync, Ev.compileBuffer] ++ initTriple (s.nextId + 1), Except.ok ()⟩ := by
  obtain ⟨h1, h2, h3, h4⟩ := h
  rcases s with ⟨smod, sslot, snext⟩
  cases hm
  simp [NodeJs.initAsync, NodeJs.loadModule, NodeJs.initInstance, h2, h3, h4, initTriple]

/-- C3: in the fetch-based (non-auto-load) variants, every property
read performed through the live exports slot before successful
initialization throws the premature-use error, whose message names the
required `initAsync` call — never an unrelated error; and a failed
`initAsync` attempt leaves the slot unchanged, so the guard stays in
place through failed attempts. -/
theorem guard_premature_use_error :
    (∀ s p, s.slot = Slot.guard → IndexJs.domainCall s p = ⟨s, [], Except.error guardMessage⟩)
    ∧ strIncludes guardMessage "initAsync" = true
    ∧ (∀ env s, isOkE (IndexJs.initAsync env s).val = false →
        (IndexJs.initAsync env s).st.slot = s.slot)
    ∧ (∀ env s, isOkE (EsmJs.initAsync env s).val = false →
        (EsmJs.initAsync env s).st.slot = s.slot) := by
  refine ⟨?_, by decide, ?_, ?_⟩
  · intro s p h
    unfold IndexJs.domainCall
    rw [h]
  · intro env s h
    exact IndexJs.initAsync_err_slot_cjs env s h
  · intro env s h
    exact EsmJs.initAsync_err_slot_esm env s h

/-- Witness for C3 at a concrete input: a domain call made in the
initial state throws the guard error. -/
theorem guard_premature_use_error_witness :
    IndexJs.domainCall st0 "encrypt" = ⟨st0, [], Except.error guardMessage⟩ :=
  guard_premature_use_error.1 st0 "encrypt" rfl

/-- C10: the compiled-module cache `mod` is write-once for sequential
executions in every variant: once it holds a compiled module, a call to
any of the loaders returns at once without touching the state, and any
sequence of Node operations (mixing the synchronous auto-load path with
`initAsync`, which share the one cache slot) preserves the cached
module unchanged. -/
theorem module_cache_write_once (m : Nat) :
    (∀ env s, s.mod = some m → IndexJs.loadModule env s = ⟨s, [], Except.ok ()⟩)
    ∧ (∀ env s, s.mod = some m → EsmJs.loadModule env s = ⟨s, [], Except.ok m⟩)
    ∧ (∀ env s, s.mod = some m → NodeJs.loadModuleSync env s = ⟨s, [], Except.ok ()⟩)
    ∧ (∀ env s, s.mod = some m → NodeJs.loadModule env s = ⟨s, [], Except.ok ()⟩)
    ∧ (∀ env s ops, s.mod = some m → (NodeJs.runOps env s ops).st.mod = some m) := by
  refine ⟨?_, ?_, ?_, ?_, ?_⟩
  · intro env s hm; exact IndexJs.loadModule_cached_cjs env s m hm
  · intro env s hm; exact EsmJs.loadModule_cached_esm env s m hm
  · intro env s hm; exact NodeJs.loadModuleSync_cached env s m hm
  · intro env s hm; exact NodeJs.loadModule_cached_node env s m hm
  · intro env s ops hm; exact NodeJs.runOps_preserves_mod env ops s m hm

/-- Witness for C10 at a concrete input: with module 7 cached, a mixed
Node operation sequence leaves the cache holding module 7. -/
theorem module_cache_write_once_witness :
    (NodeJs.runOps nenvAll ⟨some 7, Slot.exports 1, 9⟩ [Op.domain "encrypt", Op.init]).st.mod
      = some 7 :=
  (module_cache_write_once 7).2.2.2.2 nenvAll ⟨some 7, Slot.exports 1, 9⟩
    [Op.domain "encrypt", Op.init] rfl

/-- C9: an instantiation (linkage) failure propagates the host link
error to the caller of the initiating call without retry — exactly one
instantiation attempt appears in the trace — and the live exports slot
is never rebound: it still holds whatever it held before the attempt. -/
theorem link_failure_propagated_slot_unchanged :
    (∀ env s, env.instOk = false → isOkE (IndexJs.loadModule env s).val = true →
        (IndexJs.initAsync env s).val = Except.error env.linkErrMsg
        ∧ (IndexJs.initAsync env s).st.slot = s.slot
        ∧ countInsts (IndexJs.initAsync env s).tr = 1
        ∧ countRebinds (IndexJs.initAsync env s).tr = 0)
    ∧ (∀ env s m, env.instOk = false → s.mod = some m →
        (NodeJs.initInstance env s).val = Except.error env.linkErrMsg
        ∧ (NodeJs.initInstance env s).st = s
        ∧ (NodeJs.initInstance env s).tr = [Ev.instantiate]) := by
  constructor
  · intro env s hio hok
    obtain ⟨hr0, hi0, hs0⟩ := IndexJs.loadModule_counts_cjs env s
    have hslot := IndexJs.loadModule_slot_cjs env s
    unfold IndexJs.initAsync
    cases hval : (IndexJs.loadModule env s).val with
    | error e => rw [hval] at hok; exact Bool.noConfusion hok
    | ok u =>
      simp only [hval, hio]
      refine ⟨by simp, by simpa using hslot, ?_, ?_⟩
      · show countInsts ((IndexJs.loadModule env s).tr ++ [Ev.instantiate]) = 1
        rw [countInsts_append, hi0]
        decide
      · show countRebinds ((IndexJs.loadModule env s).tr ++ [Ev.instantiate]) = 0
        rw [countRebinds_append, hr0]
        decide
  · intro env s m hio hm
    unfold NodeJs.initInstance
    simp [hm, hio]

/-- Witness for C9 at a concrete input: with a link-failing environment
whose loading succeeds, `initAsync` rejects with the link error and the
slot still holds the guard proxy. -/
theorem link_failure_propagated_slot_unchanged_witness :
    (IndexJs.initAsync fenvLinkFail st0).val = Except.error fenvLinkFail.linkErrMsg
    ∧ (IndexJs.initAsync fenvLinkFail st0).st.slot = st0.slot :=
  ⟨(link_failure_propagated_slot_unchanged.1 fenvLinkFail st0 rfl (by decide)).1,
   (link_failure_propagated_slot_unchanged.1 fenvLinkFail st0 rfl (by decide)).2.1⟩

/-- C8: in every variant, a successful initialization's trace ends with
instance construction, slot rebind, and start-up invocation for that
same instance, consecutively and in that order, with no other rebind in
the trace and no suspension point among the three steps. -/
theorem rebind_between_instantiate_and_start :
    (∀ env s, isOkE (IndexJs.initAsync env s).val = true →
        endsWithAtomicInitTriple (IndexJs.initAsync env s).tr)
    ∧ (∀ env s, isOkE (EsmJs.initAsync env s).val = true →
        endsWithAtomicInitTriple (EsmJs.initAsync env s).tr)
    ∧ (∀ env s, isOkE (NodeJs.initAsync env s).val = true →
        endsWithAtomicInitTriple (NodeJs.initAsync env s).tr)
    ∧ (∀ env s p, s.slot = Slot.guard → isOkE (NodeJs.domainCall env s p).val = true →
        endsWithAtomicInitTriple (NodeJs.domainCall env s p).tr) := by
  refine ⟨?_, ?_, ?_, ?_⟩
  · intro env s h
    exact ⟨(IndexJs.loadModule env s).tr, (IndexJs.loadModule env s).st.nextId,
      IndexJs.initAsync_ok_tr_cjs env s h, (IndexJs.loadModule_counts_cjs env s).1,
      initTriple_no_suspension _⟩
  · intro env s h
    exact ⟨(EsmJs.loadModule env s).tr, (EsmJs.loadModule env s).st.nextId,
      EsmJs.initAsync_ok_tr_esm env s h, (EsmJs.loadModule_counts_esm env s).1,
      initTriple_no_suspension _⟩
  · intro env s h
    exact ⟨(NodeJs.loadModule env s).tr, (NodeJs.loadModule env s).st.nextId,
      NodeJs.initAsync_ok_tr_node env s h, (NodeJs.loadModule_counts_node env s).1,
      initTriple_no_suspension _⟩
  · intro env s p hg h
    exact ⟨(NodeJs.loadModuleSync env s).tr, (NodeJs.loadModuleSync env s).st.nextId,
      NodeJs.domainCall_guard_ok_tr env s p hg h, (NodeJs.loadModuleSync_counts env s).1,
      initTriple_no_suspension _⟩

/-- Witness for C8 at a concrete input: the successful `initAsync` of
the fetch variant ends with the atomic construct/rebind/start triple. -/
theorem rebind_between_instantiate_and_start_witness :
    endsWithAtomicInitTriple (IndexJs.initAsync fenvAll st0).tr :=
  rebind_between_instantiate_and_start.1 fenvAll st0 (by decide)

/-- C4: a failed fetch/read or compile leaves the module cache slot
empty (failure is not cached), and a subsequent `initAsync` call in an
environment where the resource is reachable and valid succeeds and
rebinds the live exports slot. -/
theorem failed_load_leaves_cache_empty_retry_succeeds :
    (∀ env s, s.mod = none → isOkE (IndexJs.loadModule env s).val = false →
        (IndexJs.loadModule env s).st.mod = none)
    ∧ (∀ env s, s.mod = none → isOkE (NodeJs.loadModuleSync env s).val = false →
        (NodeJs.loadModuleSync env s).st.mod = none)
    ∧ (∀ env s, s.mod = none → isOkE (NodeJs.loadModule env s).val = false →
        (NodeJs.loadModule env s).st.mod = none)
    ∧ (∀ env s, goodFetchEnv env → s.mod = none →
        isOkE (IndexJs.initAsync env s).val = true
        ∧ (IndexJs.initAsync env s).st.slot = Slot.exports (s.nextId + 1))
    ∧ (∀ env s, goodNodeEnv env → s.mod = none →
        isOkE (NodeJs.initAsync env s).val = true
        ∧ (NodeJs.initAsync env s).st.slot = Slot.exports (s.nextId + 1)) := by
  refine ⟨?_, ?_, ?_, ?_, ?_⟩
  · intro env s hm he; exact IndexJs.loadModule_err_mod_cjs env s hm he
  · intro env s hm he; exact NodeJs.loadModuleSync_err_mod env s hm he
  · intro env s hm he; exact NodeJs.loadModule_err_mod_node env s hm he
  · intro env s hg hm
    rw [IndexJs.initAsync_fresh_good_cjs env s hm hg]
    exact ⟨rfl, rfl⟩
  · intro env s hg hm
    rw [NodeJs.initAsync_fresh_good_node env s hm hg]
    exact ⟨rfl, rfl⟩

/-- Witness for C4 at concrete inputs: an unreachable fetch leaves the
cache empty, and a retry in a good environment succeeds and rebinds. -/
theorem failed_load_leaves_cache_empty_retry_succeeds_witness :
    (IndexJs.loadModule fenvUnreachable st0).st.mod = none
    ∧ isOkE (IndexJs.initAsync fenvAll st0).val = true :=
  ⟨failed_load_leaves_cache_empty_retry_succeeds.1 fenvUnreachable st0 rfl (by decide),
   (failed_load_leaves_cache_empty_retry_succeeds.2.2.2.1 fenvAll st0
      ⟨rfl, rfl, rfl, rfl, rfl⟩ rfl).1⟩

/-- C7: in the Node auto-load variant, for every sequence of N domain
calls issued from the initial state, at most one read/compile/
instantiate/start cycle is triggered in total, and all N calls complete
successfully with values served by the single resulting instance's
export table. -/
theorem autoload_single_cycle (env : NodeEnv) (props : List String) (h : goodNodeEnv env) :
    countInsts (NodeJs.runOps env st0 (props.map Op.domain)).tr ≤ 1
    ∧ countReadSyncs (NodeJs.runOps env st0 (props.map Op.domain)).tr ≤ 1
    ∧ countCompiles (NodeJs.runOps env st0 (props.map Op.domain)).tr ≤ 1
    ∧ countStarts (NodeJs.runOps env st0 (props.map Op.domain)).tr ≤ 1
    ∧ (NodeJs.runOps env st0 (props.map Op.domain)).outs
        = props.map (fun p => Except.ok (some ⟨1, p⟩)) := by
  obtain ⟨h1, h2, h3, h4⟩ := h
  cases props with
  | nil =>
    simp [NodeJs.runOps, countInsts, countReadSyncs, countCompiles, countStarts, List.countP_nil]
  | cons p ps =>
    have hfirst : NodeJs.domainCall env st0 p
        = ⟨⟨some 0, Slot.exports 1, 2⟩,
            [Ev.readSync, Ev.compileSync, Ev.instantiate, Ev.rebind 1, Ev.start 1],
            Except.ok ⟨1, p⟩⟩ := by
      simp [NodeJs.domainCall, NodeJs.loadModuleSync, NodeJs.initInstance, st0, h1, h3, h4]
    simp only [List.map_cons]
    unfold NodeJs.runOps NodeJs.runOp
    simp only [hfirst, NodeJs.runOps_ready env ps ⟨some 0, Slot.exports 1, 2⟩ 1 rfl]
    refine ⟨?_, ?_, ?_, ?_, ?_⟩ <;>
      simp [countInsts, countReadSyncs, countCompiles, countStarts, List.countP_append,
        List.countP_cons, List.countP_nil, isInstEv, isReadSyncEv, isCompileEv, isStartEv]

/-- Witness for C7 at a concrete input: two domain calls from the
initial state both succeed from instance 1. -/
theorem autoload_single_cycle_witness :
    countInsts (NodeJs.runOps nenvAll st0 (["encrypt", "decrypt"].map Op.domain)).tr ≤ 1
    ∧ countReadSyncs (NodeJs.runOps nenvAll st0 (["encrypt", "decrypt"].map Op.domain)).tr ≤ 1
    ∧ countCompiles (NodeJs.runOps nenvAll st0 (["encrypt", "decrypt"].map Op.domain)).tr ≤ 1
    ∧ countStarts (NodeJs.runOps nenvAll st0 (["encrypt", "decrypt"].map Op.domain)).tr ≤ 1
    ∧ (NodeJs.runOps nenvAll st0 (["encrypt", "decrypt"].map Op.domain)).outs
        = ["encrypt", "decrypt"].map (fun p => Except.ok (some ⟨1, p⟩)) :=
  autoload_single_cycle nenvAll ["encrypt", "decrypt"] ⟨rfl, rfl, rfl, rfl⟩

theorem IndexJs.initAsync_st0_good (env : FetchEnv) (h : goodFetchEnv env) :
    IndexJs.initAsync env st0
      = ⟨⟨some 0, Slot.exports 1, 2⟩,
          (if env.hasStreaming then [Ev.fetch, Ev.compileStreaming] else [Ev.fetch, Ev.compileBuffer])
            ++ initTriple 1, Except.ok ()⟩ := by
  have e := IndexJs.initAsync_fresh_good_cjs env st0 rfl h
  simpa [st0, initTriple] using e

theorem IndexJs.runOps_init_cached (env : FetchEnv) (m : Nat) (hio : env.instOk = true) :
    ∀ (n : Nat) (s : St), s.mod = some m →
      countFetches (IndexJs.runOps env s (List.replicate n Op.init)).tr = 0
      ∧ countCompiles (IndexJs.runOps env s (List.replicate n Op.init)).tr = 0
      ∧ countInsts (IndexJs.runOps env s (List.replicate n Op.init)).tr = n
      ∧ countStarts (IndexJs.runOps env s (List.replicate n Op.init)).tr = n := by
  intro n
  induction n with
  | zero =>
    intro s hm
    simp [IndexJs.runOps, countFetches, countCompiles, countInsts, countStarts, List.countP_nil]
  | succ k ih =>
    intro s hm
    rw [List.replicate_succ]
    unfold IndexJs.runOps IndexJs.runOp
    simp only [IndexJs.initAsync_cached env s m hm hio]
    obtain ⟨f, c, i, st⟩ := ih ⟨some m, Slot.exports s.nextId, s.nextId + 1⟩ rfl
    refine ⟨?_, ?_, ?_, ?_⟩
    · show countFetches ([Ev.instantiate, Ev.rebind s.nextId, Ev.start s.nextId]
          ++ (IndexJs.runOps env ⟨some m, Slot.exports s.nextId, s.nextId + 1⟩
                (List.replicate k Op.init)).tr) = 0
      rw [countFetches_append, f]
      simp [countFetches, List.countP_cons, List.countP_nil, isFetchEv]
    · show countCompiles ([Ev.instantiate, Ev.rebind s.nextId, Ev.start s.nextId]
          ++ (IndexJs.runOps env ⟨some m, Slot.exports s.nextId, s.nextId + 1⟩
                (List.replicate k Op.init)).tr) = 0
      rw [countCompiles_append, c]
      simp [countCompiles, List.countP_cons, List.countP_nil, isCompileEv]
    · show countInsts ([Ev.instantiate, Ev.rebind s.nextId, Ev.start s.nextId]
          ++ (IndexJs.runOps env ⟨some m, Slot.exports s.nextId, s.nextId + 1⟩
                (List.replicate k Op.init)).tr) = k + 1
      rw [countInsts_append, i]
      simp [countInsts, List.countP_cons, List.countP_nil, isInstEv]
      omega
    · show countStarts ([Ev.instantiate, Ev.rebind s.nextId, Ev.start s.nextId]
          ++ (IndexJs.runOps env ⟨some m, Slot.exports s.nextId, s.nextId + 1⟩
                (List.replicate k Op.init)).tr) = k + 1
      rw [countStarts_append, st]
      simp [countStarts, List.countP_cons, List.countP_nil, isStartEv]
      omega

/-- C1 counterexample: the sequence of two sequential `initAsync` calls
performs two instantiations and invokes the start-up export
`__wbindgen_start` twice — the code memoizes the compiled module but
has no instance or start-once guard, so "at most once per process even
if instantiation is attempted twice" fails. -/
theorem double_initAsync_two_starts :
    countStarts (IndexJs.runOps fenvAll st0 [Op.init, Op.init]).tr = 2
    ∧ countInsts (IndexJs.runOps fenvAll st0 [Op.init, Op.init]).tr = 2 := by decide

/-- C1 amended: the compiled module is created at most once per
process (a run of n sequential `initAsync` calls performs exactly
min n 1 fetches and compiles), but each successful `initAsync` call
constructs its own instance and invokes the start-up export again: n
calls yield n instantiations and n start invocations. -/
theorem initAsync_repetition_starts (env : FetchEnv) (n : Nat) (h : goodFetchEnv env) :
    countCompiles (IndexJs.runOps env st0 (List.replicate n Op.init)).tr = min n 1
    ∧ countFetches (IndexJs.runOps env st0 (List.replicate n Op.init)).tr = min n 1
    ∧ countStarts (IndexJs.runOps env st0 (List.replicate n Op.init)).tr = n
    ∧ countInsts (IndexJs.runOps env st0 (List.replicate n Op.init)).tr = n := by
  obtain ⟨h1, h2, h3, h4, h5⟩ := h
  cases n with
  | zero =>
    simp [IndexJs.runOps, countFetches, countCompiles, countInsts, countStarts, List.countP_nil]
  | succ k =>
    rw [List.replicate_succ]
    unfold IndexJs.runOps IndexJs.runOp
    simp only [IndexJs.initAsync_st0_good env ⟨h1, h2, h3, h4, h5⟩]
    obtain ⟨f, c, i, st⟩ :=
      IndexJs.runOps_init_cached env 0 h5 k ⟨some 0, Slot.exports 1, 2⟩ rfl
    have hmin : min (k + 1) 1 = 1 := by omega
    cases hhs : env.hasStreaming <;>
      simp only [hhs, Bool.false_eq_true, if_false, if_true, ite_true, ite_false] <;>
      refine ⟨?_, ?_, ?_, ?_⟩ <;>
      simp only [countFetches_append, countCompiles_append, countInsts_append,
        countStarts_append, f, c, i, st, hmin] <;>
      simp [initTriple, countFetches, countCompiles, countInsts, countStarts,
        List.countP_cons, List.countP_nil, isFetchEv, isCompileEv, isInstEv, isStartEv] <;>
      omega

/-- Witness for the amended C1 at a concrete input: two calls give one
compile and two starts. -/
theorem initAsync_repetition_starts_witness :
    countCompiles (IndexJs.runOps fenvAll st0 (List.replicate 2 Op.init)).tr = min 2 1
    ∧ countFetches (IndexJs.runOps fenvAll st0 (List.replicate 2 Op.init)).tr = min 2 1
    ∧ countStarts (IndexJs.runOps fenvAll st0 (List.replicate 2 Op.init)).tr = 2
    ∧ countInsts (IndexJs.runOps fenvAll st0 (List.replicate 2 Op.init)).tr = 2 :=
  initAsync_repetition_starts fenvAll 2 ⟨rfl, rfl, rfl, rfl, rfl⟩

/-- C2 counterexample: two sequential `initAsync` calls perform two
instantiations, not exactly one, and their completions do not observe
the same rebound export table: the slot holds instance 1's exports
after the first call and instance 2's exports after the second. -/
theorem double_initAsync_distinct_exports :
    countInsts ((IndexJs.initAsync fenvAll st0).tr
        ++ (IndexJs.initAsync fenvAll (IndexJs.initAsync fenvAll st0).st).tr) = 2
    ∧ (IndexJs.initAsync fenvAll st0).st.slot = Slot.exports 1
    ∧ (IndexJs.initAsync fenvAll (IndexJs.initAsync fenvAll st0).st).st.slot = Slot.exports 2
    ∧ Slot.exports 1 ≠ Slot.exports 2 := by decide

/-- C2 amended: for every pair of sequential `initAsync` calls in a
good environment, exactly one fetch and one compile occur in total,
but each call performs its own instantiation (two in total); both
calls succeed, the first binding the slot to instance 1's export table
and the second rebinding it to instance 2's, which is the table left
installed. -/
theorem double_initAsync_single_fetch_compile (env : FetchEnv) (h : goodFetchEnv env) :
    countFetches ((IndexJs.initAsync env st0).tr
        ++ (IndexJs.initAsync env (IndexJs.initAsync env st0).st).tr) = 1
    ∧ countCompiles ((IndexJs.initAsync env st0).tr
        ++ (IndexJs.initAsync env (IndexJs.initAsync env st0).st).tr) = 1
    ∧ countInsts ((IndexJs.initAsync env st0).tr
        ++ (IndexJs.initAsync env (IndexJs.initAsync env st0).st).tr) = 2
    ∧ isOkE (IndexJs.initAsync env st0).val = true
    ∧ isOkE (IndexJs.initAsync env (IndexJs.initAsync env st0).st).val = true
    ∧ (IndexJs.initAsync env st0).st.slot = Slot.exports 1
    ∧ (IndexJs.initAsync env (IndexJs.initAsync env st0).st).st.slot = Slot.exports 2 := by
  obtain ⟨h1, h2, h3, h4, h5⟩ := h
  simp only [IndexJs.initAsync_st0_good env ⟨h1, h2, h3, h4, h5⟩]
  simp only [IndexJs.initAsync_cached env ⟨some 0, Slot.exports 1, 2⟩ 0 rfl h5]
  cases hhs : env.hasStreaming <;>
    simp [hhs, initTriple, isOkE, countFetches, countCompiles, countInsts,
      List.countP_append, List.countP_cons, List.countP_nil, isFetchEv, isCompileEv, isInstEv]

/-- Witness for the amended C2 at a concrete input. -/
theorem double_initAsync_single_fetch_compile_witness :
    countFetches ((IndexJs.initAsync fenvAll st0).tr
        ++ (IndexJs.initAsync fenvAll (IndexJs.initAsync fenvAll st0).st).tr) = 1
    ∧ countCompiles ((IndexJs.initAsync fenvAll st0).tr
        ++ (IndexJs.initAsync fenvAll (IndexJs.initAsync fenvAll st0).st).tr) = 1
    ∧ countInsts ((IndexJs.initAsync fenvAll st0).tr
        ++ (IndexJs.initAsync fenvAll (IndexJs.initAsync fenvAll st0).st).tr) = 2
    ∧ isOkE (IndexJs.initAsync fenvAll st0).val = true
    ∧ isOkE (IndexJs.initAsync fenvAll (IndexJs.initAsync fenvAll st0).st).val = true
    ∧ (IndexJs.initAsync fenvAll st0).st.slot = Slot.exports 1
    ∧ (IndexJs.initAsync fenvAll (IndexJs.initAsync fenvAll st0).st).st.slot = Slot.exports 2 :=
  double_initAsync_single_fetch_compile fenvAll ⟨rfl, rfl, rfl, rfl, rfl⟩

/-- C5 counterexample: with streaming compilation available and a
non-success response status, `initAsync` rejects with the host's
streaming-compile rejection, whose message does not include the module
url — the url-citing error exists only on the buffered path, so the
claim's "regardless of which path was taken" fails. -/
theorem streaming_bad_status_error_lacks_url :
    isOkE (IndexJs.initAsync fenvStreamBadStatus st0).val = false
    ∧ (IndexJs.initAsync fenvStreamBadStatus st0).val
        = Except.error fenvStreamBadStatus.streamingErrMsg
    ∧ strIncludes fenvStreamBadStatus.streamingErrMsg moduleUrl = false := by decide

/-- C5 amended: when the buffered path runs (host without streaming
compilation) and the response has a non-success status, both
fetch-based variants reject with the error citing the module url; on
the streaming path the failure is the host's own rejection, which need
not mention the url. -/
theorem buffered_bad_status_error_cites_url (env : FetchEnv) (s : St)
    (hs : env.hasStreaming = false) (hf : env.fetchResolves = true)
    (hr : env.respOk = false) (hm : s.mod = none) :
    (IndexJs.initAsync env s).val = Except.error fetchStatusErrMsg
    ∧ (EsmJs.initAsync env s).val = Except.error fetchStatusErrMsg
    ∧ strIncludes fetchStatusErrMsg moduleUrl = true := by
  rcases s with ⟨smod, sslot, snext⟩
  cases hm
  refine ⟨?_, ?_, by decide⟩
  · simp [IndexJs.initAsync, IndexJs.loadModule, hs, hf, hr]
  · simp [EsmJs.initAsync, EsmJs.loadModule, hs, hf, hr]

/-- Witness for the amended C5 at a concrete input. -/
theorem buffered_bad_status_error_cites_url_witness :
    (IndexJs.initAsync fenvNoStreamBadStatus st0).val = Except.error fetchStatusErrMsg
    ∧ strIncludes fetchStatusErrMsg moduleUrl = true :=
  ⟨(buffered_bad_status_error_cites_url fenvNoStreamBadStatus st0 rfl rfl rfl rfl).1,
   (buffered_bad_status_error_cites_url fenvNoStreamBadStatus st0 rfl rfl rfl rfl).2.2⟩

/-- C6 counterexample: in an environment where the streaming compile
path fails but a buffered compile would succeed, `initAsync` fails
without ever attempting a buffered compile; the identical environment
without streaming support succeeds — so a streaming-path failure does
by itself cause `initAsync` to fail where buffered compilation would
have succeeded. -/
theorem streaming_failure_no_buffered_fallback :
    isOkE (IndexJs.initAsync fenvStreamCompileFail st0).val = false
    ∧ countBufferCompiles (IndexJs.initAsync fenvStreamCompileFail st0).tr = 0
    ∧ isOkE (IndexJs.initAsync { fenvStreamCompileFail with hasStreaming := false } st0).val
        = true := by decide

/-- C6 amended: the buffered fetch-then-compile path is used only when
the host lacks streaming compilation; when the streaming path is taken
and fails for any reason (fetch rejection, non-success status, or
compile failure), the failure propagates out of `initAsync` with no
buffered-compile attempt and no second fetch, in both fetch-based
variants. -/
theorem buffered_only_without_streaming_support (env : FetchEnv) (s : St)
    (hs : env.hasStreaming = true) (hm : s.mod = none)
    (hfail : env.fetchResolves = false ∨ env.respOk = false ∨ env.streamingCompileOk = false) :
    isOkE (IndexJs.initAsync env s).val = false
    ∧ countBufferCompiles (IndexJs.initAsync env s).tr = 0
    ∧ countFetches (IndexJs.initAsync env s).tr = 1
    ∧ isOkE (EsmJs.initAsync env s).val = false
    ∧ countBufferCompiles (EsmJs.initAsync env s).tr = 0
    ∧ countFetches (EsmJs.initAsync env s).tr = 1 := by
  rcases s with ⟨smod, sslot, snext⟩
  cases hm
  cases hfr : env.fetchResolves <;> cases hro : env.respOk <;>
    cases hso : env.streamingCompileOk <;>
    simp_all [IndexJs.initAsync, IndexJs.loadModule, EsmJs.initAsync, EsmJs.loadModule,
      isOkE, countBufferCompiles, countFetches, List.countP_cons, List.countP_nil,
      isCompileBufferEv, isFetchEv]

/-- Witness for the amended C6 at a concrete input. -/
theorem buffered_only_without_streaming_support_witness :
    isOkE (IndexJs.initAsync fenvStreamCompileFail st0).val = false
    ∧ countBufferCompiles (IndexJs.initAsync fenvStreamCompileFail st0).tr = 0
    ∧ countFetches (IndexJs.initAsync fenvStreamCompileFail st0).tr = 1
    ∧ isOkE (EsmJs.initAsync fenvStreamCompileFail st0).val = false
    ∧ countBufferCompiles (EsmJs.initAsync fenvStreamCompileFail st0).tr = 0
    ∧ countFetches (EsmJs.initAsync fenvStreamCompileFail st0).tr = 1 :=
  buffered_only_without_streaming_support fenvStreamCompileFail st0 rfl rfl
    (Or.inr (Or.inr rfl))

